import Mathlib

/-!
# Verification of the trading-ops evaluation state machine

Shallow embedding of the LucidBlack 25k evaluation core:

* `trading/prop/lucid_black_25k/risk_governor.py` — rule constants,
  consistency checks, trailing-drawdown governor;
* `trading/backtest_harness/eval_attempt.py` — daily-profit attempt simulator;
* `trading/backtest_harness/days_to_pass.py` — trade-stream path simulator and
  distribution aggregator;
* `trading/backtest_harness/eval_from_trades.py` — the intraday gate (same
  loop body as the gate in `days_to_pass.simulate_path`);
* `trading/prop/lucid_black_25k/backtest/eval_v10_eval.py` — the v10 evaluator
  variant `_eval_cycle`.

Python floats are modelled as `ℚ`; every operation the code performs on them
(addition, subtraction, `min`, `max`, comparison, division by a positive
total) is order-faithful, and `float("inf")` / `float("-inf")` sentinels are
modelled with `WithTop ℚ` / `Option ℚ`.
-/

namespace TradingOps

/-- Rules dataclass `Lucid25kRules` from `risk_governor.py` (frozen, with defaults).
Monetary amounts and ratios are rationals; contract-count fields are
integers. -/
structure Lucid25kRules where
  max_loss_limit : ℚ := 1000
  start_balance : ℚ := 25000
  initial_trail_balance : ℚ := 26100
  locked_mll_balance : ℚ := 25100
  eval_profit_target : ℚ := 1250
  eval_consistency_cap : ℚ := 0.60
  payout_profit_goal : ℚ := 1500
  funded_consistency_cap : ℚ := 0.40
  max_micros_absolute : ℤ := 20
  max_minis_absolute : ℤ := 2
  funded_micros_tier1_cap : ℤ := 10
  funded_micros_tier2_cap : ℤ := 20
  funded_tier2_threshold_profit : ℚ := 1000
deriving Repr

/-- Default rule set `Lucid25kRules()` used throughout the harness. -/
def default_rules : Lucid25kRules := {}

/-- Function `consistency_ratio` from `risk_governor.py`: returns `float("inf")`
(modelled as `⊤` in `WithTop ℚ`) when `total_profit <= 0`, otherwise
`largest_day_profit / total_profit`. -/
def consistency_ratio (total_profit largest_day_profit : ℚ) : WithTop ℚ :=
  if total_profit ≤ 0 then ⊤ else ((largest_day_profit / total_profit : ℚ) : WithTop ℚ)

/-- Function `is_consistency_ok` from `risk_governor.py`:
`consistency_ratio(total, largest) <= cap` (a float comparison; `inf <= cap`
is false for every finite `cap`, which `⊤ ≤ (cap : WithTop ℚ)` mirrors). -/
def is_consistency_ok (total_profit largest_day_profit cap : ℚ) : Bool :=
  decide (consistency_ratio total_profit largest_day_profit ≤ (cap : WithTop ℚ))

/-- Function `eod_trailing_floor` from `risk_governor.py`:
`min(highest_close - max_loss_limit, locked_mll_balance)`. -/
def eod_trailing_floor (rules : Lucid25kRules) (highest_close : ℚ) : ℚ :=
  min (highest_close - rules.max_loss_limit) rules.locked_mll_balance

/-- Function `update_highest_close` from `risk_governor.py`. -/
def update_highest_close (prev_highest_close eod_close : ℚ) : ℚ :=
  max prev_highest_close eod_close

/-- Function `step_eod_drawdown` from `risk_governor.py`: returns
`(new_highest, floor, breached)` with `breached = eod_close <= floor`. -/
def step_eod_drawdown (rules : Lucid25kRules) (prev_highest_close eod_close : ℚ) :
    ℚ × ℚ × Bool :=
  let new_highest := update_highest_close prev_highest_close eod_close
  let floor := eod_trailing_floor rules new_highest
  (new_highest, floor, decide (eod_close ≤ floor))

/-- Spec dataclass `Eval25kSpec` from `eval_v10_eval.py` (frozen, with defaults). -/
structure Eval25kSpec where
  profit_target : ℚ := 1250
  consistency_cap : ℚ := 0.60
  start_balance : ℚ := 25000
  max_loss_limit : ℚ := 1000
  initial_trail_balance : ℚ := 26100
  locked_mll_balance : ℚ := 25100
deriving Repr

/-- Fixed spec `Eval25kSpec()` used by `score_eval_pass`. -/
def default_spec : Eval25kSpec := {}

/-- The lock-on-cross floor computed inline in `_eval_cycle`
(`eval_v10_eval.py` lines 144–147): once `high_close >= initial_trail_balance`
the floor is the locked value, otherwise it trails `high_close` by
`max_loss_limit`. -/
def lock_on_cross_floor (spec : Eval25kSpec) (high_close : ℚ) : ℚ :=
  if spec.initial_trail_balance ≤ high_close then spec.locked_mll_balance
  else high_close - spec.max_loss_limit

end TradingOps

namespace TradingOps

/-- Reason literal type `FailReason` from `eval_attempt.py`. -/
inductive FailReason where
  | target_hit
  | time_limit
  | consistency_breach
  | mll_breach
deriving DecidableEq, Repr

/-- Result dataclass `AttemptResult` from `eval_attempt.py`. -/
structure AttemptResult where
  passed : Bool
  reason : FailReason
  days : ℕ
  total_profit : ℚ
  largest_day : ℚ
  highest_close : ℚ
  mll_floor : ℚ
deriving DecidableEq, Repr

/-- The close-derivation loop of `simulate_eval_attempt_daily` when
`day_closes is None`: `bal += p; closes.append(bal)` starting from
`start_balance`. -/
def derived_closes (bal : ℚ) : List ℚ → List ℚ
  | [] => []
  | p :: ps => (bal + p) :: derived_closes (bal + p) ps

/-- The day loop of `simulate_eval_attempt_daily` (`eval_attempt.py` lines
75–117), over the zipped `(day_profit, close)` pairs.  `di` counts days
already processed, so the 1-based index of the day being processed is
`di + 1`; exhausting the list returns the `time_limit` result with
`days = di`. -/
def eval_loop (rules : Lucid25kRules) (di : ℕ)
    (total largest highest_close mll_floor : ℚ) :
    List (ℚ × ℚ) → AttemptResult
  | [] => ⟨false, .time_limit, di, total, largest, highest_close, mll_floor⟩
  | (p, c) :: rest =>
    let total' := total + p
    let largest' := max largest p
    let s := step_eod_drawdown rules highest_close c
    if s.2.2 then
      ⟨false, .mll_breach, di + 1, total', largest', s.1, s.2.1⟩
    else if rules.eval_consistency_cap * rules.eval_profit_target < largest' then
      ⟨false, .consistency_breach, di + 1, total', largest', s.1, s.2.1⟩
    else if rules.eval_profit_target ≤ total' then
      if is_consistency_ok total' largest' rules.eval_consistency_cap then
        ⟨true, .target_hit, di + 1, total', largest', s.1, s.2.1⟩
      else
        ⟨false, .consistency_breach, di + 1, total', largest', s.1, s.2.1⟩
    else
      eval_loop rules (di + 1) total' largest' s.1 s.2.1 rest

/-- Function `simulate_eval_attempt_daily` from `eval_attempt.py`.  `day_closes = none`
derives closes from profits; the source indexes `closes[i]` for `i < n`, which
the zip reproduces whenever the caller supplies at least `n` closes (the only
shapes the repository uses). -/
def simulate_eval_attempt_daily (day_profits : List ℚ) (day_closes : Option (List ℚ))
    (rules : Lucid25kRules) (max_days : ℕ) : AttemptResult :=
  let n := min day_profits.length max_days
  let profits := day_profits.take n
  let closes : List ℚ :=
    match day_closes with
    | none => derived_closes rules.start_balance profits
    | some cs => cs.take n
  eval_loop rules 0 0 0 rules.start_balance
    (rules.start_balance - rules.max_loss_limit) (profits.zip closes)

end TradingOps

namespace TradingOps

/-- The fields of the strategy `Trade` dataclasses that the evaluation core
reads: the exit timestamp (unix seconds, used for day bucketing) and the
realized profit in dollars. -/
structure Trade where
  exit_ts : ℤ
  pnl_dollars : ℚ
deriving DecidableEq, Repr

/-- Candle record from `tv_csv.py`; the aggregator reads only `ts`. -/
structure Candle where
  ts : ℤ
  open_ : ℚ
  high : ℚ
  low : ℚ
  close : ℚ
deriving DecidableEq, Repr

/-- Function `day_key` from `days_to_pass.py` / `eval_from_trades.py`: the UTC calendar
date of a unix timestamp.  The source formats it as a `"%Y-%m-%d"` string; we
model the key as the UTC day ordinal `ts / 86400` (floor division), which
induces exactly the same partition of timestamps into calendar days and the
same chronological order as the date strings. -/
def day_key (ts : ℤ) : ℤ := Int.fdiv ts 86400

/-- Outcome strings of `PathResult` in `days_to_pass.py`
(`target_hit | mll_breach | consistency_breach | timeout`). -/
inductive Outcome where
  | target_hit
  | mll_breach
  | consistency_breach
  | timeout
deriving DecidableEq, Repr

/-- Result dataclass `PathResult` from `days_to_pass.py`. -/
structure PathResult where
  outcome : Outcome
  days : ℕ
  total_profit : ℚ
  largest_day : ℚ
deriving DecidableEq, Repr

/-- The loss-cap stop test shared by `simulate_path` (`days_to_pass.py`) and
`simulate_eval_from_trades` (`eval_from_trades.py`):
`daily_loss_cap is not None and day_profit <= -abs(daily_loss_cap)`. -/
def loss_cap_stop (daily_loss_cap : Option ℚ) (day_profit : ℚ) : Bool :=
  match daily_loss_cap with
  | none => false
  | some l => decide (day_profit ≤ -|l|)

/-- The intraday gate: the per-day trade loop of `simulate_path`
(`days_to_pass.py` lines 82–92) and of `simulate_eval_from_trades`
(`eval_from_trades.py` lines 69–82), folded over the day's trade profits.
Stops before a trade when the running total is already at/above the profit
cap or at/below the negated loss cap; after adding a trade, clamps to the
profit cap and stops when strictly past it. -/
def day_gate (daily_profit_cap : ℚ) (daily_loss_cap : Option ℚ) :
    ℚ → List ℚ → ℚ
  | acc, [] => acc
  | acc, p :: ps =>
    if daily_profit_cap ≤ acc then acc
    else if loss_cap_stop daily_loss_cap acc then acc
    else
      let acc' := acc + p
      if daily_profit_cap < acc' then daily_profit_cap
      else day_gate daily_profit_cap daily_loss_cap acc' ps

/-- The day loop of `simulate_path` (`days_to_pass.py` lines 81–110).
`by_day d` is the ordered list of trade profits whose exit day key is `d`
(the `by_day` buckets of the source); `di` counts processed days. -/
def path_loop (rules : Lucid25kRules) (daily_profit_cap : ℚ)
    (daily_loss_cap : Option ℚ) (by_day : ℤ → List ℚ) (di : ℕ)
    (total largest bal highest_close : ℚ) : List ℤ → PathResult
  | [] => ⟨.timeout, di, total, largest⟩
  | d :: rest =>
    let day_profit := day_gate daily_profit_cap daily_loss_cap 0 (by_day d)
    let total' := total + day_profit
    let largest' := max largest day_profit
    let bal' := bal + day_profit
    let s := step_eod_drawdown rules highest_close bal'
    if s.2.2 then
      ⟨.mll_breach, di + 1, total', largest'⟩
    else if rules.eval_consistency_cap * rules.eval_profit_target < largest' then
      ⟨.consistency_breach, di + 1, total', largest'⟩
    else if rules.eval_profit_target ≤ total' then
      if is_consistency_ok total' largest' rules.eval_consistency_cap then
        ⟨.target_hit, di + 1, total', largest'⟩
      else
        ⟨.consistency_breach, di + 1, total', largest'⟩
    else
      path_loop rules daily_profit_cap daily_loss_cap by_day (di + 1)
        total' largest' bal' s.1 rest

/-- Sorting step `sorted(list(trades), key=lambda t: t.exit_ts)` — Python's stable sort,
modelled by stable insertion sort on the exit timestamp. -/
def sort_trades (trades : List Trade) : List Trade :=
  trades.insertionSort (fun a b => a.exit_ts ≤ b.exit_ts)

/-- Function `simulate_path` from `days_to_pass.py`: bucket the time-sorted trades by
exit-day key, then run the day loop over `days_order[:max_days]`.  On
exhaustion the loop has processed `min(max_days, len(days_order))` days,
which is exactly the `days` the source reports for `timeout`. -/
def simulate_path (trades : List Trade) (days_order : List ℤ)
    (rules : Lucid25kRules) (daily_profit_cap : ℚ) (daily_loss_cap : Option ℚ)
    (max_days : ℕ) : PathResult :=
  let tlist := sort_trades trades
  let by_day : ℤ → List ℚ := fun d =>
    (tlist.filter (fun t => day_key t.exit_ts = d)).map (fun t => t.pnl_dollars)
  path_loop rules daily_profit_cap daily_loss_cap by_day 0
    0 0 rules.start_balance rules.start_balance (days_order.take max_days)

end TradingOps

namespace TradingOps

/-- The `days` half of `build_day_index` (`days_to_pass.py` lines 28–38): the
sorted list of distinct exit-day keys present in the candle list. -/
def build_days (candles : List Candle) : List ℤ :=
  ((candles.map (fun c => day_key c.ts)).dedup).insertionSort (· ≤ ·)

/-- The `index` half of `build_day_index`: `idx[d][0]`, the index of the first
candle whose day key is `d`. -/
def first_candle_index (candles : List Candle) (d : ℤ) : ℕ :=
  candles.findIdx (fun c => day_key c.ts == d)

/-- The per-window results of the `for s in range(len(days))` loop of
`days_to_pass_distribution` (`days_to_pass.py` lines 130–146): one fresh
`simulate_path` attempt per distinct start day, on the candle slice from that
day's first row and the day window `days[s : s + max_days]`. -/
def path_results (candles : List Candle) (gen_trades : List Candle → List Trade)
    (rules : Lucid25kRules) (daily_profit_cap : ℚ) (daily_loss_cap : Option ℚ)
    (max_days : ℕ) : List PathResult :=
  let days := build_days candles
  (List.range days.length).map fun s =>
    simulate_path
      (gen_trades (candles.drop (first_candle_index candles (days.getD s 0))))
      ((days.drop s).take max_days) rules daily_profit_cap daily_loss_cap max_days

/-- The report dict built by `days_to_pass_distribution`
(`days_to_pass.py` lines 148–155).  The `outcomes` counter and the
histogram are modelled as counting functions; `avg_days` is `none` for an
outcome with no attempts (absent dict key). -/
structure DistReport where
  windows : ℕ
  max_days : ℕ
  outcomes : Outcome → ℕ
  avg_days : Outcome → Option ℚ
  pass_days_hist : ℕ → ℕ
  pass_rate : ℚ

/-- Function `days_to_pass_distribution` from `days_to_pass.py`. -/
def days_to_pass_distribution (candles : List Candle)
    (gen_trades : List Candle → List Trade) (rules : Lucid25kRules)
    (daily_profit_cap : ℚ) (daily_loss_cap : Option ℚ) (max_days : ℕ) :
    DistReport :=
  let days := build_days candles
  let rs := path_results candles gen_trades rules daily_profit_cap daily_loss_cap max_days
  { windows := days.length
    max_days := max_days
    outcomes := fun o => (rs.filter (fun r => r.outcome == o)).length
    avg_days := fun o =>
      let l := rs.filter (fun r => r.outcome == o)
      if l.length = 0 then none
      else some ((l.map (fun r => (r.days : ℚ))).sum / (l.length : ℚ))
    pass_days_hist := fun d =>
      (rs.filter (fun r => r.outcome == Outcome.target_hit && r.days == d)).length
    pass_rate :=
      if days.length = 0 then 0
      else ((rs.filter (fun r => r.outcome == Outcome.target_hit)).length : ℚ) /
        (days.length : ℚ) }

end TradingOps

namespace TradingOps

/-- Tracker update for `largest = float("-inf")` in `_eval_cycle`: the sentinel is modelled as `none`;
a real running maximum is `some l`. -/
def neg_inf_max (largest : Option ℚ) (p : ℚ) : Option ℚ :=
  some (match largest with
        | none => p
        | some l => max l p)

/-- Ratio test `(largest / total) <= spec.consistency_cap` from `_eval_cycle`, evaluated
only under `total > 0`; `largest = -inf` gives `-inf ≤ cap`, i.e. `true`. -/
def neg_inf_ratio_le (largest : Option ℚ) (total cap : ℚ) : Bool :=
  match largest with
  | none => true
  | some l => decide (l / total ≤ cap)

/-- The `for k in range(max_days)` loop of `_eval_cycle`
(`eval_v10_eval.py` lines 130–156).  `fuel` is the number of remaining loop
iterations (initially `max_days`), `k` the current 0-based iteration.
Return value mirrors the source: `(passed, days, breached)`. -/
def eval_cycle_go (spec : Eval25kSpec) (day_keys : List ℤ) (pnl : ℤ → ℚ)
    (start_i : ℕ) : ℕ → ℕ → ℚ → Option ℚ → ℚ → ℚ → Bool × Option ℕ × Bool
  | 0, _, _, _, _, _ => (false, none, false)
  | fuel + 1, k, total, largest, close_bal, high_close =>
    if day_keys.length ≤ start_i + k then (false, none, false)
    else
      let p := pnl (day_keys.getD (start_i + k) 0)
      let total' := total + p
      let largest' := neg_inf_max largest p
      let close' := close_bal + p
      let high' := max high_close close'
      let mll := lock_on_cross_floor spec high'
      if close' ≤ mll then (false, none, true)
      else if spec.profit_target ≤ total' ∧ 0 < total' ∧
          neg_inf_ratio_le largest' total' spec.consistency_cap = true then
        (true, some (k + 1), false)
      else
        eval_cycle_go spec day_keys pnl start_i fuel (k + 1) total' largest' close' high'

/-- Function `_eval_cycle` from `eval_v10_eval.py`: `day_pnl.get(dk, 0.0)` is modelled
by the total lookup function `pnl`. -/
def eval_cycle (spec : Eval25kSpec) (day_keys : List ℤ) (pnl : ℤ → ℚ)
    (start_i max_days : ℕ) : Bool × Option ℕ × Bool :=
  eval_cycle_go spec day_keys pnl start_i max_days 0 0 none
    spec.start_balance spec.start_balance

end TradingOps

namespace TradingOps

/-- Trace of `highest_close` values observed across an attempt: the first
component of `step_eod_drawdown` folded over the end-of-day closes, starting
at `start_balance` (as in every simulator in the harness). -/
def highest_trace (rules : Lucid25kRules) (closes : List ℚ) : List ℚ :=
  closes.scanl (fun h c => (step_eod_drawdown rules h c).1) rules.start_balance

theorem highest_trace_cons (rules : Lucid25kRules) (c : ℚ) (cs : List ℚ) :
    highest_trace rules (c :: cs) =
      rules.start_balance ::
        cs.scanl (fun h c => (step_eod_drawdown rules h c).1)
          (max rules.start_balance c) := by
  rfl

/-- Helper: every element of a `max`-scan is bounded below by any lower bound
of the seed, and consecutive elements are ordered. -/
theorem scanl_max_le_chain (cs : List ℚ) :
    ∀ b : ℚ, List.Chain' (· ≤ ·) (cs.scanl (fun h c => max h c) b) ∧
      ∀ x ∈ cs.scanl (fun h c => max h c) b, b ≤ x := by
  induction cs with
  | nil =>
      intro b
      constructor
      · simp [List.scanl]
      · intro x hx
        simp [List.scanl] at hx
        simp [hx]
  | cons c cs ih =>
      intro b
      obtain ⟨hchain, hmem⟩ := ih (max b c)
      constructor
      · rw [List.scanl]
        rcases h : cs.scanl (fun h c => max h c) (max b c) with _ | ⟨y, ys⟩
        · simp
        · rw [h] at hchain
          refine List.Chain'.cons ?_ hchain
          have : max b c ≤ y := by
            apply hmem
            rw [h]; exact List.mem_cons_self _ _
          exact le_trans (le_max_left _ _) this
      · intro x hx
        rw [List.scanl] at hx
        rcases List.mem_cons.mp hx with h | h
        · simp [h]
        · exact le_trans (le_max_left b c) (hmem x h)

end TradingOps

namespace TradingOps

/-- C9: For every rule set and every sequence of end-of-day closing balances,
the `highest_close` trace produced by folding `step_eod_drawdown` from
`start_balance` is non-decreasing day to day, and every value in it is at
least `start_balance`. -/
theorem highest_close_monotone (rules : Lucid25kRules) (closes : List ℚ) :
    List.Chain' (· ≤ ·) (highest_trace rules closes) ∧
      ∀ x ∈ highest_trace rules closes, rules.start_balance ≤ x := by
  have h := scanl_max_le_chain closes rules.start_balance
  have heq : highest_trace rules closes =
      closes.scanl (fun h c => max h c) rules.start_balance := by
    unfold highest_trace step_eod_drawdown update_highest_close
    rfl
  rw [heq]
  exact h

/-- C10: a day whose close ties or exceeds the previous high-water mark can
never breach the trailing floor, provided `max_loss_limit > 0`. -/
theorem no_breach_on_new_high (rules : Lucid25kRules) (prev_highest_close eod_close : ℚ)
    (hmll : 0 < rules.max_loss_limit) (hge : prev_highest_close ≤ eod_close) :
    (step_eod_drawdown rules prev_highest_close eod_close).2.2 = false := by
  unfold step_eod_drawdown update_highest_close eod_trailing_floor
  simp only [decide_eq_false_iff_not]
  rw [max_eq_right hge]
  intro hle
  have h1 : eod_close ≤ eod_close - rules.max_loss_limit :=
    le_trans hle (min_le_left _ _)
  linarith

/-- Witness for C10 at the default rules with `prev = close = 25000`. -/
theorem no_breach_on_new_high_witness :
    0 < default_rules.max_loss_limit ∧ (25000 : ℚ) ≤ 25000 ∧
      (step_eod_drawdown default_rules 25000 25000).2.2 = false :=
  ⟨by norm_num [default_rules], le_refl _,
    no_breach_on_new_high default_rules 25000 25000 (by norm_num [default_rules]) (le_refl _)⟩

/-- C8: for every non-positive total, the consistency ratio is `+∞` and the
consistency check fails, for every largest-day value and every (finite) cap. -/
theorem consistency_fails_nonpositive_total (total_profit largest_day_profit cap : ℚ)
    (htot : total_profit ≤ 0) :
    consistency_ratio total_profit largest_day_profit = ⊤ ∧
      is_consistency_ok total_profit largest_day_profit cap = false := by
  have hratio : consistency_ratio total_profit largest_day_profit = ⊤ := by
    unfold consistency_ratio
    simp [htot]
  refine ⟨hratio, ?_⟩
  unfold is_consistency_ok
  rw [hratio]
  simp only [decide_eq_false_iff_not]
  intro hle
  have := top_le_iff.mp hle
  exact WithTop.coe_ne_top this

/-- Witness for C8 at `total = -3`, `largest = 5`, `cap = 0.6`. -/
theorem consistency_fails_nonpositive_total_witness :
    (-3 : ℚ) ≤ 0 ∧ consistency_ratio (-3) 5 = ⊤ ∧ is_consistency_ok (-3) 5 0.6 = false := by
  refine ⟨by norm_num, ?_⟩
  have h := consistency_fails_nonpositive_total (-3) 5 0.6 (by norm_num)
  exact h

/-- Helper shared by the two C3 theorems: at the fixed constants the min-form
floor agrees with the cross-form floor, because `26100 - 1000 = 25100`. -/
theorem min_floor_eq_cross_floor (hc : ℚ) :
    min (hc - 1000) 25100 = if (26100 : ℚ) ≤ hc then (25100 : ℚ) else hc - 1000 := by
  by_cases h : (26100 : ℚ) ≤ hc
  · have h2 : min (hc - 1000) (25100 : ℚ) = 25100 := min_eq_right (by linarith)
    rw [if_pos h, h2]
  · push_neg at h
    have h2 : min (hc - 1000) (25100 : ℚ) = hc - 1000 := min_eq_left (by linarith)
    rw [if_neg (by linarith), h2]

/-- C3 counterexample: contrary to the claim, under the constants fixed in the
code there is NO `highest_close` at which the always-min floor
(`eod_trailing_floor`, `risk_governor.py`) and the lock-on-cross floor
(`_eval_cycle`, `eval_v10_eval.py`) differ: they agree everywhere because
`locked_mll_balance = initial_trail_balance - max_loss_limit`. -/
theorem floor_formulas_no_separating_input :
    ¬ ∃ hc : ℚ, eod_trailing_floor default_rules hc ≠ lock_on_cross_floor default_spec hc := by
  intro ⟨hc, hne⟩
  apply hne
  show min (hc - 1000) 25100 = if (26100 : ℚ) ≤ hc then (25100 : ℚ) else hc - 1000
  exact min_floor_eq_cross_floor hc

/-- C3 (amended): under the rule constants fixed in the code the two
trailing-floor formulations coincide for every `highest_close`. -/
theorem floor_formulas_equal (hc : ℚ) :
    eod_trailing_floor default_rules hc = lock_on_cross_floor default_spec hc := by
  show min (hc - 1000) 25100 = if (26100 : ℚ) ≤ hc then (25100 : ℚ) else hc - 1000
  exact min_floor_eq_cross_floor hc

/-- Helper: the gate never raises the running total above the profit cap once
it is at or below it. -/
theorem day_gate_le_of_le (daily_profit_cap : ℚ) (daily_loss_cap : Option ℚ) :
    ∀ (ps : List ℚ) (acc : ℚ), acc ≤ daily_profit_cap →
      day_gate daily_profit_cap daily_loss_cap acc ps ≤ daily_profit_cap := by
  intro ps
  induction ps with
  | nil => intro acc h; simpa [day_gate] using h
  | cons p ps ih =>
    intro acc h
    simp only [day_gate]
    split_ifs with h1 h2 h3
    · exact h
    · exact h
    · exact le_refl _
    · exact ih _ (not_lt.mp h3)

/-- C6: for a positive daily profit cap the intraday gate (a) never reports a
day profit above the cap, (b) ignores every remaining trade once the running
total is at/above the cap, (c) ignores every remaining trade once the loss-cap
stop holds, and (d) records exactly the cap when a single trade pushes the
running total strictly past it. -/
theorem intraday_gate_never_exceeds_cap (daily_profit_cap : ℚ)
    (daily_loss_cap : Option ℚ) (day_pnls : List ℚ)
    (hpos : 0 < daily_profit_cap) :
    day_gate daily_profit_cap daily_loss_cap 0 day_pnls ≤ daily_profit_cap ∧
    (∀ (acc : ℚ) (rest : List ℚ), daily_profit_cap ≤ acc →
      day_gate daily_profit_cap daily_loss_cap acc rest = acc) ∧
    (∀ (acc : ℚ) (rest : List ℚ), loss_cap_stop daily_loss_cap acc = true →
      day_gate daily_profit_cap daily_loss_cap acc rest = acc) ∧
    (∀ (acc p : ℚ) (rest : List ℚ), acc < daily_profit_cap →
      loss_cap_stop daily_loss_cap acc = false →
      daily_profit_cap < acc + p →
      day_gate daily_profit_cap daily_loss_cap acc (p :: rest) = daily_profit_cap) := by
  refine ⟨day_gate_le_of_le _ _ day_pnls 0 hpos.le, ?_, ?_, ?_⟩
  · intro acc rest h
    cases rest with
    | nil => rfl
    | cons q qs => simp [day_gate, h]
  · intro acc rest h
    cases rest with
    | nil => rfl
    | cons q qs =>
        simp only [day_gate, h]
        split_ifs <;> rfl
  · intro acc p rest h1 h2 h3
    simp [day_gate, h1.not_le, h2, h3]

/-- Witness for C6 at cap 750, loss cap 300, day trades `[800, 100]`. -/
theorem intraday_gate_never_exceeds_cap_witness :
    0 < (750 : ℚ) ∧ day_gate 750 (some 300) 0 [800, 100] ≤ 750 :=
  ⟨by norm_num,
    (intraday_gate_never_exceeds_cap 750 (some 300) [800, 100] (by norm_num)).1⟩

/-- C2: on any day where, after the balance and largest-day updates, both the
trailing-floor breach condition and the day-cap consistency condition hold,
both simulators terminate that day with `mll_breach` (not
`consistency_breach`): the drawdown governor runs strictly before the day-cap
check.  Stated over the loop state, i.e. for every day an attempt can reach. -/
theorem mll_breach_precedes_day_cap
    (rules : Lucid25kRules) (di : ℕ)
    (total largest highest_close mll_floor p c : ℚ) (rest : List (ℚ × ℚ))
    (daily_profit_cap : ℚ) (daily_loss_cap : Option ℚ) (by_day : ℤ → List ℚ)
    (d : ℤ) (total₂ largest₂ bal₂ highest₂ : ℚ) (days_rest : List ℤ)
    (hb : (step_eod_drawdown rules highest_close c).2.2 = true)
    (hcap : rules.eval_consistency_cap * rules.eval_profit_target < max largest p)
    (hb₂ : (step_eod_drawdown rules highest₂
        (bal₂ + day_gate daily_profit_cap daily_loss_cap 0 (by_day d))).2.2 = true)
    (hcap₂ : rules.eval_consistency_cap * rules.eval_profit_target <
        max largest₂ (day_gate daily_profit_cap daily_loss_cap 0 (by_day d))) :
    ((eval_loop rules di total largest highest_close mll_floor
        ((p, c) :: rest)).reason = FailReason.mll_breach ∧
      (eval_loop rules di total largest highest_close mll_floor
        ((p, c) :: rest)).days = di + 1) ∧
    ((path_loop rules daily_profit_cap daily_loss_cap by_day di
        total₂ largest₂ bal₂ highest₂ (d :: days_rest)).outcome = Outcome.mll_breach ∧
      (path_loop rules daily_profit_cap daily_loss_cap by_day di
        total₂ largest₂ bal₂ highest₂ (d :: days_rest)).days = di + 1) := by
  constructor
  · constructor <;> simp [eval_loop, hb]
  · constructor <;> simp [path_loop, hb₂]

/-- Witness for C2: a `-2000` close after an `800` day (both conditions hold)
yields `mll_breach` in both simulators. -/
theorem mll_breach_precedes_day_cap_witness :
    (step_eod_drawdown default_rules 25000 23000).2.2 = true ∧
    default_rules.eval_consistency_cap * default_rules.eval_profit_target <
      max 0 800 ∧
    (step_eod_drawdown default_rules 25000
      (22000 + day_gate 10000 none 0 [800])).2.2 = true ∧
    default_rules.eval_consistency_cap * default_rules.eval_profit_target <
      max 0 (day_gate 10000 none 0 [800]) ∧
    (eval_loop default_rules 0 0 0 25000 24000 [(800, 23000)]).reason =
      FailReason.mll_breach ∧
    (path_loop default_rules 10000 none (fun _ => [800]) 0
      0 0 22000 25000 [0]).outcome = Outcome.mll_breach := by
  have h := mll_breach_precedes_day_cap default_rules 0 0 0 25000 24000 800 23000 []
    10000 none (fun _ => [800]) 0 0 0 22000 25000 []
    (by norm_num [step_eod_drawdown, update_highest_close, eod_trailing_floor, default_rules])
    (by norm_num [default_rules])
    (by norm_num [step_eod_drawdown, update_highest_close, eod_trailing_floor,
      default_rules, day_gate, loss_cap_stop])
    (by norm_num [default_rules, day_gate, loss_cap_stop])
  refine ⟨?_, ?_, ?_, ?_, h.1.1, h.2.1⟩
  · norm_num [step_eod_drawdown, update_highest_close, eod_trailing_floor, default_rules]
  · norm_num [default_rules]
  · norm_num [step_eod_drawdown, update_highest_close, eod_trailing_floor,
      default_rules, day_gate, loss_cap_stop]
  · norm_num [default_rules, day_gate, loss_cap_stop]

/-- C1 (amended): in the harness simulators, on a day the attempt reaches
with neither the trailing-floor breach nor the day-cap check firing and with
the updated total at/above the profit target, the attempt terminates on that
very day — result independent of any later days, day count the day's 1-based
index, outcome `target_hit` when the final ratio check passes and
`consistency_breach` when it fails.  (The `_eval_cycle` variant violates
this: see the counterexample.) -/
theorem target_day_terminates
    (rules : Lucid25kRules) (di : ℕ)
    (total largest highest_close mll_floor p c : ℚ)
    (daily_profit_cap : ℚ) (daily_loss_cap : Option ℚ) (by_day : ℤ → List ℚ)
    (d : ℤ) (total₂ largest₂ bal₂ highest₂ : ℚ)
    (hb : (step_eod_drawdown rules highest_close c).2.2 = false)
    (hcap : ¬ rules.eval_consistency_cap * rules.eval_profit_target < max largest p)
    (htgt : rules.eval_profit_target ≤ total + p)
    (hb₂ : (step_eod_drawdown rules highest₂
        (bal₂ + day_gate daily_profit_cap daily_loss_cap 0 (by_day d))).2.2 = false)
    (hcap₂ : ¬ rules.eval_consistency_cap * rules.eval_profit_target <
        max largest₂ (day_gate daily_profit_cap daily_loss_cap 0 (by_day d)))
    (htgt₂ : rules.eval_profit_target ≤
        total₂ + day_gate daily_profit_cap daily_loss_cap 0 (by_day d)) :
    (∀ rest rest' : List (ℚ × ℚ),
      eval_loop rules di total largest highest_close mll_floor ((p, c) :: rest) =
        eval_loop rules di total largest highest_close mll_floor ((p, c) :: rest')) ∧
    (∀ rest : List (ℚ × ℚ),
      (eval_loop rules di total largest highest_close mll_floor
          ((p, c) :: rest)).days = di + 1 ∧
      (eval_loop rules di total largest highest_close mll_floor
          ((p, c) :: rest)).reason =
        (if is_consistency_ok (total + p) (max largest p) rules.eval_consistency_cap
         then FailReason.target_hit else FailReason.consistency_breach)) ∧
    (∀ ds ds' : List ℤ,
      path_loop rules daily_profit_cap daily_loss_cap by_day di
          total₂ largest₂ bal₂ highest₂ (d :: ds) =
        path_loop rules daily_profit_cap daily_loss_cap by_day di
          total₂ largest₂ bal₂ highest₂ (d :: ds')) ∧
    (∀ ds : List ℤ,
      (path_loop rules daily_profit_cap daily_loss_cap by_day di
          total₂ largest₂ bal₂ highest₂ (d :: ds)).days = di + 1 ∧
      (path_loop rules daily_profit_cap daily_loss_cap by_day di
          total₂ largest₂ bal₂ highest₂ (d :: ds)).outcome =
        (if is_consistency_ok
            (total₂ + day_gate daily_profit_cap daily_loss_cap 0 (by_day d))
            (max largest₂ (day_gate daily_profit_cap daily_loss_cap 0 (by_day d)))
            rules.eval_consistency_cap
         then Outcome.target_hit else Outcome.consistency_breach)) := by
  refine ⟨?_, ?_, ?_, ?_⟩
  · intro rest rest'
    simp only [eval_loop, hb, Bool.false_eq_true, if_false, hcap, if_neg, htgt, if_pos]
  · intro rest
    constructor
    · simp only [eval_loop, hb, Bool.false_eq_true, if_false, hcap, if_neg, htgt, if_pos]
      cases hok : is_consistency_ok (total + p) (max largest p) rules.eval_consistency_cap <;>
        simp [hok]
    · simp only [eval_loop, hb, Bool.false_eq_true, if_false, hcap, if_neg, htgt, if_pos]
      cases hok : is_consistency_ok (total + p) (max largest p) rules.eval_consistency_cap <;>
        simp [hok]
  · intro ds ds'
    simp only [path_loop, hb₂, Bool.false_eq_true, if_false, hcap₂, if_neg, htgt₂, if_pos]
  · intro ds
    constructor
    · simp only [path_loop, hb₂, Bool.false_eq_true, if_false, hcap₂, if_neg, htgt₂, if_pos]
      cases hok : is_consistency_ok
          (total₂ + day_gate daily_profit_cap daily_loss_cap 0 (by_day d))
          (max largest₂ (day_gate daily_profit_cap daily_loss_cap 0 (by_day d)))
          rules.eval_consistency_cap <;> simp [hok]
    · simp only [path_loop, hb₂, Bool.false_eq_true, if_false, hcap₂, if_neg, htgt₂, if_pos]
      cases hok : is_consistency_ok
          (total₂ + day_gate daily_profit_cap daily_loss_cap 0 (by_day d))
          (max largest₂ (day_gate daily_profit_cap daily_loss_cap 0 (by_day d)))
          rules.eval_consistency_cap <;> simp [hok]

/-- Witness for C1 on the day a `700 + 550 = 1250` total reaches the target:
both simulators terminate that day with `target_hit` and day index 2,
regardless of later days. -/
theorem target_day_terminates_witness :
    (step_eod_drawdown default_rules 25700 26250).2.2 = false ∧
    ¬ default_rules.eval_consistency_cap * default_rules.eval_profit_target <
        max 700 550 ∧
    default_rules.eval_profit_target ≤ 700 + 550 ∧
    eval_loop default_rules 1 700 700 25700 24700 [(550, 26250), (1, 1)] =
      eval_loop default_rules 1 700 700 25700 24700 [(550, 26250)] ∧
    (eval_loop default_rules 1 700 700 25700 24700
      [(550, 26250), (1, 1)]).days = 2 ∧
    (path_loop default_rules 750 (some 300) (fun _ => [550]) 1
      700 700 25700 25700 [0, 1]).days = 2 := by
  have hb : (step_eod_drawdown default_rules 25700 26250).2.2 = false := by
    norm_num [step_eod_drawdown, update_highest_close, eod_trailing_floor, default_rules]
  have hcap : ¬ default_rules.eval_consistency_cap * default_rules.eval_profit_target <
      max (700 : ℚ) 550 := by norm_num [default_rules]
  have htgt : default_rules.eval_profit_target ≤ (700 : ℚ) + 550 := by
    norm_num [default_rules]
  have hb₂ : (step_eod_drawdown default_rules 25700
      (25700 + day_gate 750 (some 300) 0 ((fun _ : ℤ => [(550 : ℚ)]) 0))).2.2 = false := by
    norm_num [step_eod_drawdown, update_highest_close, eod_trailing_floor,
      default_rules, day_gate, loss_cap_stop]
  have hcap₂ : ¬ default_rules.eval_consistency_cap * default_rules.eval_profit_target <
      max 700 (day_gate 750 (some 300) 0 ((fun _ : ℤ => [(550 : ℚ)]) 0)) := by
    norm_num [default_rules, day_gate, loss_cap_stop]
  have htgt₂ : default_rules.eval_profit_target ≤
      700 + day_gate 750 (some 300) 0 ((fun _ : ℤ => [(550 : ℚ)]) 0) := by
    norm_num [default_rules, day_gate, loss_cap_stop]
  have h := target_day_terminates default_rules 1 700 700 25700 24700 550 26250
    750 (some 300) (fun _ => [550]) 0 700 700 25700 25700
    hb hcap htgt hb₂ hcap₂ htgt₂
  exact ⟨hb, hcap, htgt, h.1 [(1, 1)] [], (h.2.1 [(1, 1)]).1, (h.2.2.2 [1]).1⟩

/-- C1 counterexample, against `_eval_cycle` (`eval_v10_eval.py`): with a
1300-profit day the total reaches the 1250 target on day 1 with no prior
breach, and the final ratio check fails (`1300/1300 > 0.6`); the claim says
the attempt terminates on day 1 with a consistency breach, but `_eval_cycle`
keeps simulating and passes on day 2 (`days = 2`). -/
theorem eval_cycle_continues_past_failed_ratio :
    eval_cycle default_spec [0, 1] (fun _ => 1300) 0 15 = (true, some 2, false) := by
  norm_num [eval_cycle, eval_cycle_go, lock_on_cross_floor, neg_inf_max,
    neg_inf_ratio_le, default_spec]

/-- Helper: the loop `eval_loop` processes some prefix of its day list; the day count
advances by the prefix length, the total is the starting total plus the sum
of the prefix's profits, and the largest-day tracker is the running `max`
fold of the starting tracker over the prefix's profits. -/
theorem eval_loop_prefix_totals (rules : Lucid25kRules) :
    ∀ (pairs : List (ℚ × ℚ)) (di : ℕ) (total largest highest_close mll_floor : ℚ),
      ∃ k ≤ pairs.length,
        (eval_loop rules di total largest highest_close mll_floor pairs).days = di + k ∧
        (eval_loop rules di total largest highest_close mll_floor pairs).total_profit =
          total + ((pairs.take k).map Prod.fst).sum ∧
        (eval_loop rules di total largest highest_close mll_floor pairs).largest_day =
          ((pairs.take k).map Prod.fst).foldl max largest := by
  intro pairs
  induction pairs with
  | nil =>
      intro di total largest highest_close mll_floor
      exact ⟨0, Nat.le_refl 0, by simp [eval_loop], by simp [eval_loop], by simp [eval_loop]⟩
  | cons pc rest ih =>
      intro di total largest highest_close mll_floor
      obtain ⟨p, c⟩ := pc
      simp only [eval_loop]
      split_ifs with h1 h2 h3 h4
      · exact ⟨1, by simp, by simp, by simp, by simp⟩
      · exact ⟨1, by simp, by simp, by simp, by simp⟩
      · exact ⟨1, by simp, by simp, by simp, by simp⟩
      · exact ⟨1, by simp, by simp, by simp, by simp⟩
      · obtain ⟨k, hk, hdays, htot, hlarg⟩ :=
          ih (di + 1) (total + p) (max largest p)
            (step_eod_drawdown rules highest_close c).1
            (step_eod_drawdown rules highest_close c).2.1
        refine ⟨k + 1, by simpa using Nat.succ_le_succ hk, ?_, ?_, ?_⟩
        · rw [hdays]; omega
        · rw [htot]; simp [add_assoc]
        · rw [hlarg]; simp

/-- Helper: projecting the first components out of a taken prefix of a zip
recovers the taken prefix of the first list. -/
theorem map_fst_zip_take :
    ∀ (k : ℕ) (a b : List ℚ), k ≤ (a.zip b).length →
      ((a.zip b).take k).map Prod.fst = a.take k := by
  intro k
  induction k with
  | zero => intro a b _; simp
  | succ k ih =>
      intro a b hk
      cases a with
      | nil => simp at hk
      | cons x xs =>
          cases b with
          | nil => simp at hk
          | cons y ys =>
              simp only [List.zip_cons_cons, List.take_succ_cons, List.map_cons]
              rw [ih xs ys (by simpa using hk)]

/-- Helper: the totals invariant for a run of `eval_loop` from the initial
accumulators over zipped profits and closes. -/
theorem eval_loop_zip_totals (rules : Lucid25kRules) (a closes : List ℚ)
    (highest_close mll_floor : ℚ) :
    (eval_loop rules 0 0 0 highest_close mll_floor (a.zip closes)).total_profit =
      (a.take (eval_loop rules 0 0 0 highest_close mll_floor (a.zip closes)).days).sum ∧
    (eval_loop rules 0 0 0 highest_close mll_floor (a.zip closes)).largest_day =
      (a.take
        (eval_loop rules 0 0 0 highest_close mll_floor (a.zip closes)).days).foldl max 0 := by
  obtain ⟨k, hk, hdays, htot, hlarg⟩ :=
    eval_loop_prefix_totals rules (a.zip closes) 0 0 0 highest_close mll_floor
  rw [hdays, htot, hlarg, Nat.zero_add, map_fst_zip_take k a closes hk, zero_add]
  exact ⟨rfl, rfl⟩

/-- Helper: the `simulate_path` analogue of `eval_loop_prefix_totals` — the
day loop of `days_to_pass.py` processes some prefix of its day list, the day
count advances by the prefix length, the total is the starting total plus the
sum of the gated day profits of the prefix, and the largest-day tracker is the
running `max` fold of the starting tracker over those day profits. -/
theorem path_loop_prefix_totals (rules : Lucid25kRules) (daily_profit_cap : ℚ)
    (daily_loss_cap : Option ℚ) (by_day : ℤ → List ℚ) :
    ∀ (ds : List ℤ) (di : ℕ) (total largest bal highest_close : ℚ),
      ∃ k ≤ ds.length,
        (path_loop rules daily_profit_cap daily_loss_cap by_day di
          total largest bal highest_close ds).days = di + k ∧
        (path_loop rules daily_profit_cap daily_loss_cap by_day di
          total largest bal highest_close ds).total_profit =
          total + ((ds.take k).map
            (fun d => day_gate daily_profit_cap daily_loss_cap 0 (by_day d))).sum ∧
        (path_loop rules daily_profit_cap daily_loss_cap by_day di
          total largest bal highest_close ds).largest_day =
          ((ds.take k).map
            (fun d => day_gate daily_profit_cap daily_loss_cap 0 (by_day d))).foldl
            max largest := by
  intro ds
  induction ds with
  | nil =>
      intro di total largest bal highest_close
      exact ⟨0, Nat.le_refl 0, by simp [path_loop], by simp [path_loop], by simp [path_loop]⟩
  | cons d rest ih =>
      intro di total largest bal highest_close
      simp only [path_loop]
      split_ifs with h1 h2 h3 h4
      · exact ⟨1, by simp, by simp, by simp, by simp⟩
      · exact ⟨1, by simp, by simp, by simp, by simp⟩
      · exact ⟨1, by simp, by simp, by simp, by simp⟩
      · exact ⟨1, by simp, by simp, by simp, by simp⟩
      · obtain ⟨k, hk, hdays, htot, hlarg⟩ :=
          ih (di + 1)
            (total + day_gate daily_profit_cap daily_loss_cap 0 (by_day d))
            (max largest (day_gate daily_profit_cap daily_loss_cap 0 (by_day d)))
            (bal + day_gate daily_profit_cap daily_loss_cap 0 (by_day d))
            (step_eod_drawdown rules highest_close
              (bal + day_gate daily_profit_cap daily_loss_cap 0 (by_day d))).1
        refine ⟨k + 1, by simpa using Nat.succ_le_succ hk, ?_, ?_, ?_⟩
        · rw [hdays]; omega
        · rw [htot]; simp [add_assoc]
        · rw [hlarg]; simp

/-- C4 (amended): in both harness simulators, at termination — and, by
`eval_loop_prefix_totals` / `path_loop_prefix_totals`, after every processed
prefix — the reported total profit is the sum of the day profits processed so
far (for `simulate_path`, the gated day profit of each processed day of the
day window), and the reported largest day is the `max`-fold of those profits
**started at 0** (both simulators initialise the tracker to `0.0`), i.e.
`max 0 (max over days so far)`, which differs from the plain maximum exactly
on all-negative sequences. -/
theorem attempt_totals_track_processed_days (day_profits : List ℚ)
    (day_closes : Option (List ℚ)) (rules : Lucid25kRules) (max_days : ℕ)
    (trades : List Trade) (days_order : List ℤ)
    (daily_profit_cap : ℚ) (daily_loss_cap : Option ℚ) :
    ((simulate_eval_attempt_daily day_profits day_closes rules max_days).total_profit =
      (day_profits.take
        (simulate_eval_attempt_daily day_profits day_closes rules max_days).days).sum ∧
    (simulate_eval_attempt_daily day_profits day_closes rules max_days).largest_day =
      (day_profits.take
        (simulate_eval_attempt_daily day_profits day_closes rules max_days).days).foldl
        max 0) ∧
    ((simulate_path trades days_order rules daily_profit_cap daily_loss_cap
        max_days).total_profit =
      ((days_order.take
          (simulate_path trades days_order rules daily_profit_cap daily_loss_cap
            max_days).days).map
        (fun d => day_gate daily_profit_cap daily_loss_cap 0
          (((sort_trades trades).filter
              (fun t => day_key t.exit_ts = d)).map (fun t => t.pnl_dollars)))).sum ∧
    (simulate_path trades days_order rules daily_profit_cap daily_loss_cap
        max_days).largest_day =
      ((days_order.take
          (simulate_path trades days_order rules daily_profit_cap daily_loss_cap
            max_days).days).map
        (fun d => day_gate daily_profit_cap daily_loss_cap 0
          (((sort_trades trades).filter
              (fun t => day_key t.exit_ts = d)).map (fun t => t.pnl_dollars)))).foldl
        max 0) := by
  constructor
  · unfold simulate_eval_attempt_daily
    set n := min day_profits.length max_days with hn
    set a := day_profits.take n with ha
    set closes : List ℚ :=
      (match day_closes with
       | none => derived_closes rules.start_balance a
       | some cs => cs.take n) with hcl
    obtain ⟨k, hk, hdays, htot, hlarg⟩ :=
      eval_loop_prefix_totals rules (a.zip closes) 0 0 0 rules.start_balance
        (rules.start_balance - rules.max_loss_limit)
    have hkn : k ≤ n := by
      have h1 : (a.zip closes).length ≤ a.length := by
        rw [List.length_zip]; exact min_le_left _ _
      have h2 : a.length ≤ n := by
        rw [ha, List.length_take]; exact min_le_left _ _
      omega
    have htake : a.take k = day_profits.take k := by
      rw [ha, List.take_take, min_eq_left hkn]
    rw [hdays, htot, hlarg, Nat.zero_add, map_fst_zip_take k a closes hk, htake, zero_add]
    exact ⟨rfl, rfl⟩
  · unfold simulate_path
    set by_day : ℤ → List ℚ := fun d =>
      ((sort_trades trades).filter
        (fun t => day_key t.exit_ts = d)).map (fun t => t.pnl_dollars) with hbd
    obtain ⟨k, hk, hdays, htot, hlarg⟩ :=
      path_loop_prefix_totals rules daily_profit_cap daily_loss_cap by_day
        (days_order.take max_days) 0 0 0 rules.start_balance rules.start_balance
    have hkm : k ≤ max_days := by
      have h1 : (days_order.take max_days).length ≤ max_days := by
        rw [List.length_take]; exact min_le_left _ _
      omega
    have htake : (days_order.take max_days).take k = days_order.take k := by
      rw [List.take_take, min_eq_left hkm]
    rw [hdays, htot, hlarg, Nat.zero_add, htake, zero_add]
    exact ⟨rfl, rfl⟩

/-- C4 counterexample: on the all-negative sequence `[-10]` the simulator
processes one day and reports `largest_day = 0`, but the maximum over the day
profits processed so far is `-10 ≠ 0`: the tracker starts at `0.0`, not at
the first day's profit. -/
theorem largest_day_not_max_on_negative_days :
    (simulate_eval_attempt_daily [-10] none default_rules 5).days = 1 ∧
    (simulate_eval_attempt_daily [-10] none default_rules 5).largest_day = 0 ∧
    List.maximum [(-10 : ℚ)] = some (-10) ∧
    (0 : ℚ) ≠ -10 := by
  refine ⟨?_, ?_, by rw [List.maximum_singleton]; rfl, by norm_num⟩ <;>
    norm_num [simulate_eval_attempt_daily, eval_loop, derived_closes,
      step_eod_drawdown, update_highest_close, eod_trailing_floor,
      is_consistency_ok, consistency_ratio, default_rules]

/-- C5, the code evaluated at the failing input: on the repository's own test
input for Scenario D — day profits `[1100, -1000]`, closes `[26100, 25100]` —
`simulate_eval_attempt_daily` returns `consistency_breach` with `days = 1`:
the day-cap proxy fires on the `1100` day (`1100 > 0.6 * 1250 = 750`) before
day 2 can ever reach the locked floor.  The claim, spec Scenario D and the
repository's own test `test_floor_locks_at_25100_when_high_close_26100`
expect `mll_breach` with `days = 2`. -/
theorem scenario_d_day_cap_fires_first :
    simulate_eval_attempt_daily [1100, -1000] (some [26100, 25100]) default_rules 5 =
      ⟨false, FailReason.consistency_breach, 1, 1100, 1100, 26100, 25100⟩ := by
  norm_num [simulate_eval_attempt_daily, eval_loop, step_eod_drawdown,
    update_highest_close, eod_trailing_floor, is_consistency_ok,
    consistency_ratio, default_rules]

/-- Helper: every result's outcome is exactly one of the four constructors,
so the four filtered counts partition any result list. -/
theorem outcome_count_partition (rs : List PathResult) :
    (rs.filter (fun r => r.outcome == Outcome.target_hit)).length +
      (rs.filter (fun r => r.outcome == Outcome.mll_breach)).length +
      (rs.filter (fun r => r.outcome == Outcome.consistency_breach)).length +
      (rs.filter (fun r => r.outcome == Outcome.timeout)).length = rs.length := by
  induction rs with
  | nil => rfl
  | cons r rs ih =>
      cases h : r.outcome <;> simp [List.filter_cons, h] <;> omega

/-- C7: the distribution aggregator runs exactly one fresh attempt per
distinct day key of the dataset: the reported window count is the number of
distinct day keys, the four per-outcome counts sum to the window count, and
the pass rate is the `target_hit` count over the window count (0 with no
days). -/
theorem distribution_window_accounting (candles : List Candle)
    (gen_trades : List Candle → List Trade) (rules : Lucid25kRules)
    (daily_profit_cap : ℚ) (daily_loss_cap : Option ℚ) (max_days : ℕ) :
    (days_to_pass_distribution candles gen_trades rules daily_profit_cap
        daily_loss_cap max_days).windows =
      ((candles.map (fun c => day_key c.ts)).dedup).length ∧
    (days_to_pass_distribution candles gen_trades rules daily_profit_cap
        daily_loss_cap max_days).outcomes Outcome.target_hit +
      (days_to_pass_distribution candles gen_trades rules daily_profit_cap
        daily_loss_cap max_days).outcomes Outcome.mll_breach +
      (days_to_pass_distribution candles gen_trades rules daily_profit_cap
        daily_loss_cap max_days).outcomes Outcome.consistency_breach +
      (days_to_pass_distribution candles gen_trades rules daily_profit_cap
        daily_loss_cap max_days).outcomes Outcome.timeout =
      (days_to_pass_distribution candles gen_trades rules daily_profit_cap
        daily_loss_cap max_days).windows ∧
    (days_to_pass_distribution candles gen_trades rules daily_profit_cap
        daily_loss_cap max_days).pass_rate =
      (if (days_to_pass_distribution candles gen_trades rules daily_profit_cap
          daily_loss_cap max_days).windows = 0 then 0
       else ((days_to_pass_distribution candles gen_trades rules daily_profit_cap
          daily_loss_cap max_days).outcomes Outcome.target_hit : ℚ) /
         ((days_to_pass_distribution candles gen_trades rules daily_profit_cap
          daily_loss_cap max_days).windows : ℚ)) := by
  refine ⟨?_, ?_, ?_⟩
  · show (build_days candles).length = _
    rw [build_days, List.length_insertionSort]
  · have h := outcome_count_partition
      (path_results candles gen_trades rules daily_profit_cap daily_loss_cap max_days)
    have hlen : (path_results candles gen_trades rules daily_profit_cap
        daily_loss_cap max_days).length = (build_days candles).length := by
      rw [path_results]
      simp
    exact h.trans hlen
  · rfl

end TradingOps
